import Mathlib

/-!
Shallow embedding of the vector-bloom geometry engine
(src/vector-bloom-point.js, src/vector-bloom-path.js, src/vector-bloom.js).

Modelling conventions:
* JS numbers are embedded as real numbers (`ℝ`); `Math.sqrt`, `Math.sin`,
  `Math.cos`, `Math.PI` become `Real.sqrt`, `Real.sin`, `Real.cos`, `Real.pi`.
* The JS idiom `x || d` applied to a present number is `jsOr x d`
  (`0` is falsy, every other number truthy).
* Mutating chained Point methods are pure functions: each JS call chain is a
  straight-line composition, translated step by step.
* `VectorBloomNode.curveTo` is wired by the `VectorBloomPath` constructor to
  the successor node, the last node wrapping to the first; we represent that
  same-lifetime reference by the successor index `curveToIdx`.
* `petalGeometry.count` is taken as a natural number (the petal count used as
  the `for` loop bound).
* The do–while loop of `createCenter` is modelled with explicit fuel; `none`
  means the loop is still running after `fuel` iterations, so a loop that
  never finishes returns `none` for every fuel.
-/

noncomputable section

/-- Embeds `x || d` for a JS number `x` that is present: `0` is falsy. -/
def jsOr (x d : ℝ) : ℝ := if x = 0 then d else x

/-- Embeds `ToRadian` (vector-bloom.js line 403). -/
def ToRadian (angle : ℝ) : ℝ := angle * Real.pi / 180

/-- Embeds `VectorBloomPoint`: a pair of coordinates (vector-bloom-point.js). -/
@[ext] structure VectorBloomPoint where
  x : ℝ
  y : ℝ

namespace VectorBloomPoint

/-- Embeds `magnitude()` : `Math.sqrt((this.x * this.x) + (this.y * this.y))`. -/
def magnitude (p : VectorBloomPoint) : ℝ := Real.sqrt (p.x * p.x + p.y * p.y)

/-- Embeds `normalize()` : divides both coordinates by the magnitude. -/
def normalize (p : VectorBloomPoint) : VectorBloomPoint :=
  VectorBloomPoint.mk (p.x / p.magnitude) (p.y / p.magnitude)

/-- Embeds `scale(factor)`. -/
def scale (p : VectorBloomPoint) (factor : ℝ) : VectorBloomPoint :=
  VectorBloomPoint.mk (p.x * factor) (p.y * factor)

/-- Embeds `add(point)` (point overload). -/
def add (p q : VectorBloomPoint) : VectorBloomPoint :=
  VectorBloomPoint.mk (p.x + q.x) (p.y + q.y)

/-- Embeds `subtract(point)` (point overload). -/
def subtract (p q : VectorBloomPoint) : VectorBloomPoint :=
  VectorBloomPoint.mk (p.x - q.x) (p.y - q.y)

/-- Embeds `squaredDistanceFrom(point)` (point overload):
`xd = point.x - this.x`, `yd = point.y - this.y`, result `xd*xd + yd*yd`. -/
def squaredDistanceFrom (p q : VectorBloomPoint) : ℝ :=
  (q.x - p.x) * (q.x - p.x) + (q.y - p.y) * (q.y - p.y)

/-- Embeds `distanceFrom(point)`: square root of `squaredDistanceFrom`. -/
def distanceFrom (p q : VectorBloomPoint) : ℝ :=
  Real.sqrt (p.squaredDistanceFrom q)

end VectorBloomPoint

/-- Embeds `VectorBloomNode` (vector-bloom-path.js): an anchor `position` with
two control points; `curveTo` is represented at the path level by
`curveToIdx`. -/
structure VectorBloomNode where
  position : VectorBloomPoint
  controlPoint1 : VectorBloomPoint
  controlPoint2 : VectorBloomPoint

/-- Embeds `new VectorBloomNode(x, y)`: both control points start equal to the
position. -/
def VectorBloomNode.ofXY (x y : ℝ) : VectorBloomNode :=
  { position := VectorBloomPoint.mk x y
    controlPoint1 := VectorBloomPoint.mk x y
    controlPoint2 := VectorBloomPoint.mk x y }

/-- Default node used with `List.getD` (JS would throw on out-of-range). -/
def defaultNode : VectorBloomNode := VectorBloomNode.ofXY 0 0

/-- Embeds `VectorBloomPath`: it owns its ordered node list; the constructor
wiring `node.curveTo = nodes[index + 1]` with the last node wrapping to
`nodes[0]` is captured by `curveToIdx`. -/
structure VectorBloomPath where
  nodes : List VectorBloomNode

/-- Default path used with `List.getD`. -/
def defaultPath : VectorBloomPath := VectorBloomPath.mk []

/-- Successor index of node `i` in a path of `len` nodes, as wired by the
`VectorBloomPath` constructor: every node points to the next one, the last
(`i = len - 1`) points back to node `0`. -/
def curveToIdx (len i : ℕ) : ℕ := if i = len - 1 then 0 else i + 1

/-- One cubic Bezier segment of the compiled path data, in the order written
by `writeData`: current node's `controlPoint2`, successor's `controlPoint1`,
successor's `position`. -/
structure BezierSegment where
  control1 : VectorBloomPoint
  control2 : VectorBloomPoint
  endPoint : VectorBloomPoint

/-- Default segment used with `List.getD`. -/
def defaultSegment : BezierSegment :=
  BezierSegment.mk (VectorBloomPoint.mk 0 0) (VectorBloomPoint.mk 0 0)
    (VectorBloomPoint.mk 0 0)

/-- The abstract content of the `d` string: a start point (`M x y`), the `C`
segments, and whether the path is closed (`Z`). -/
structure CompiledCurve where
  start : VectorBloomPoint
  segments : List BezierSegment
  closed : Bool

/-- Embeds `writeData(node)` inside `compilePathData` for the node at index
`i`: emits `(node.controlPoint2, node.curveTo.controlPoint1,
node.curveTo.position)`. -/
def writeData (p : VectorBloomPath) (i : ℕ) : BezierSegment :=
  let node := p.nodes.getD i defaultNode
  let next := p.nodes.getD (curveToIdx p.nodes.length i) defaultNode
  BezierSegment.mk node.controlPoint2 next.controlPoint1 next.position

/-- Embeds `compilePathData()`: `M` at node 0's position, then one Bezier
segment per node (`for i in [0, len-1]` plus the final `writeData`), then
`Z`. -/
def compilePathData (p : VectorBloomPath) : CompiledCurve :=
  { start := (p.nodes.getD 0 defaultNode).position
    segments := (List.range p.nodes.length).map (writeData p)
    closed := true }

/-- A path's compiled curve closes: it carries the `Z` instruction and its
last segment ends at the curve's start point. -/
def VectorBloomPath.IsClosedCurve (p : VectorBloomPath) : Prop :=
  (compilePathData p).closed = true ∧
  ∃ s, (compilePathData p).segments.getLast? = some s ∧
    s.endPoint = (compilePathData p).start

/-- Embeds `ApplySmoothing(node, originNode, value)` (vector-bloom.js lines
421-431). `nextNode` stands for `node.curveTo`. The function reads only the
three positions and overwrites the node's two control points. -/
def ApplySmoothing (node originNode nextNode : VectorBloomNode) (value : ℝ) :
    VectorBloomNode :=
  let workerPoint1 := ((node.position.subtract originNode.position)).normalize
  let workerPoint2 := ((nextNode.position.subtract node.position)).normalize
  let tangent := (workerPoint1.add workerPoint2).normalize
  let cp2 := node.position.add
    (tangent.scale (value * (nextNode.position.distanceFrom node.position)))
  let cp1 := node.position.add
    (tangent.scale (-value * (node.position.distanceFrom originNode.position)))
  { node with controlPoint2 := cp2, controlPoint1 := cp1 }

/-- Embeds `makePerpendicular(point)`: normalize, then `(x, y) → (-y, x)`. -/
def makePerpendicular (point : VectorBloomPoint) : VectorBloomPoint :=
  let p := point.normalize
  VectorBloomPoint.mk (-p.y) p.x

/-- Embeds `getRadialNode(angle, distance, position, smoothing)`
(vector-bloom.js lines 708-725). The `position` argument is always supplied
at every call site, so it is a plain argument here; an absent JS `smoothing`
argument is the falsy `0` (the code guards with `if (smoothing)`). -/
def getRadialNode (angle distance : ℝ) (position : VectorBloomPoint)
    (smoothing : ℝ) : VectorBloomNode :=
  let x := Real.sin angle * distance + position.x
  let y := Real.cos angle * distance + position.y
  let createdNode := VectorBloomNode.ofXY x y
  if smoothing = 0 then createdNode
  else
    let workerPoint1 := makePerpendicular (createdNode.position.subtract position)
    { createdNode with
      controlPoint1 := (workerPoint1.scale smoothing).add createdNode.position
      controlPoint2 :=
        ((workerPoint1.scale smoothing).scale (-1)).add createdNode.position }

/-- Embeds `PetalGeometry` after defaults are available: every field present.
`count` is the loop bound of `createPetals`, taken as a natural number.
`jitter` is declared in the library's configuration schema
(dist/vector-bloom.d.ts) but never read by the generator. -/
structure PetalGeometry where
  width : ℝ
  count : ℕ
  length : ℝ
  innerWidth : ℝ
  outerWidth : ℝ
  angleOffset : ℝ
  radialOffset : ℝ
  balance : ℝ
  smoothing : ℝ
  extendOutside : Bool
  offsetX : ℝ
  offsetY : ℝ
  jitter : ℝ

/-- The guard of `fillPetalDefaults` (vector-bloom.js line 439): a warning is
logged exactly when `width`, `count` or `length` is falsy; the log is the only
effect, generation is not stopped. -/
def petalDefaultsWarn (g : PetalGeometry) : Prop :=
  g.width = 0 ∨ g.count = 0 ∨ g.length = 0

/-- The geometry with its (never-read) `jitter` field replaced. -/
def setJitter (g : PetalGeometry) (j : ℝ) : PetalGeometry := { g with jitter := j }

/-- Applies `ApplySmoothing` to every node of the path, the predecessor of node
0 wrapping to the last node, as in `createPetal` (vector-bloom.js lines
690-694). `ApplySmoothing` writes only control points and reads only
positions, which the in-place JS `forEach` never mutates, so the sequential
loop is the same as this pointwise map. -/
def smoothAllNodes (p : VectorBloomPath) (value : ℝ) : VectorBloomPath :=
  let len := p.nodes.length
  VectorBloomPath.mk ((List.range len).map (fun index =>
    let node := p.nodes.getD index defaultNode
    let fromNode := if index = 0 then p.nodes.getD (len - 1) defaultNode
      else p.nodes.getD (index - 1) defaultNode
    let toNode := p.nodes.getD (curveToIdx len index) defaultNode
    ApplySmoothing node fromNode toNode value))

/-- Embeds `createPetal(petalGeometry, centerRadius, offset)` (vector-bloom.js
lines 665-699): the eight radial nodes, the optional tip extension, and the
optional smoothing pass (`if (petalGeometry.smoothing)`, falsy `0` skips). -/
def createPetal (g : PetalGeometry) (centerRadius offset : ℝ) :
    VectorBloomPath :=
  let innerWidthHalf := ToRadian (g.innerWidth / 2)
  let outerWidthHalf := ToRadian (g.outerWidth / 2)
  let widthHalf := ToRadian (g.width / 2)
  let extension :=
    if g.extendOutside then (centerRadius + g.length) * outerWidthHalf else 0
  let centerOffset := VectorBloomPoint.mk (jsOr g.offsetX 0) (jsOr g.offsetY 0)
  let petalNodes : List VectorBloomNode :=
    [ getRadialNode (offset - innerWidthHalf) centerRadius centerOffset 0,
      getRadialNode offset (centerRadius - 10) centerOffset 0,
      getRadialNode (offset + innerWidthHalf) centerRadius centerOffset 0,
      getRadialNode (offset + widthHalf)
        (centerRadius + g.length * g.balance) centerOffset 0,
      getRadialNode (offset + outerWidthHalf)
        (centerRadius + g.length) centerOffset 0,
      getRadialNode offset (centerRadius + g.length + extension) centerOffset 0,
      getRadialNode (offset - outerWidthHalf)
        (centerRadius + g.length) centerOffset 0,
      getRadialNode (offset - widthHalf)
        (centerRadius + g.length * g.balance) centerOffset 0 ]
  let petal := VectorBloomPath.mk petalNodes
  if g.smoothing = 0 then petal else smoothAllNodes petal g.smoothing

/-- The angular step `Math.PI * 2 / petalGeometry.count` of `createPetals`. -/
def petalStep (g : PetalGeometry) : ℝ := Real.pi * 2 / (g.count : ℝ)

/-- The `for` loop of `createPetals`: `count` iterations, the offset advancing
by `petalStep` after each petal. -/
def createPetalsAux (g : PetalGeometry) (centerRadius : ℝ) :
    ℕ → ℝ → List VectorBloomPath
  | 0, _ => []
  | k + 1, offset =>
    createPetal g centerRadius offset ::
      createPetalsAux g centerRadius k (offset + petalStep g)

/-- Embeds `createPetals(petalConfig, centerRadius)` (vector-bloom.js lines
643-656): the effective radius is `centerRadius + (radialOffset || 0) *
centerRadius` and the first offset is `ToRadian(angleOffset || 0)`. -/
def createPetals (g : PetalGeometry) (centerRadius : ℝ) :
    List VectorBloomPath :=
  createPetalsAux g (centerRadius + jsOr g.radialOffset 0 * centerRadius)
    g.count (ToRadian (jsOr g.angleOffset 0))

/-- The petal part of `createElements` (vector-bloom.js lines 137-138): each
configured group is generated independently and `unshift`ed to the front of
the collection. -/
def createAllPetals (configs : List PetalGeometry) (radius : ℝ) :
    List (List VectorBloomPath) :=
  configs.foldl (fun acc c => createPetals c radius :: acc) []

/-- Embeds `CenterGeometry`: the two-element arrays `age`, `range`, `size`
become pairs of fields. -/
structure CenterGeometry where
  age0 : ℝ
  age1 : ℝ
  range0 : ℝ
  range1 : ℝ
  density : ℝ
  size0 : ℝ
  size1 : ℝ

/-- Embeds `GOLDEN_RATIO = (1 + Math.sqrt(5)) / 2`. -/
def goldenRatioConst : ℝ := (1 + Real.sqrt 5) / 2

/-- Embeds `GOLDEN_RADIANS = 2 * (Math.PI - (GOLDEN_RATIO * Math.PI / (1 +
GOLDEN_RATIO)))`. -/
def GOLDEN_RADIANS : ℝ :=
  2 * (Real.pi - goldenRatioConst * Real.pi / (1 + goldenRatioConst))

/-- `minRadius = (arrangement.range[0] || 0) * radius` in `createCenter`. -/
def centerMinRadius (g : CenterGeometry) (radius : ℝ) : ℝ :=
  jsOr g.range0 0 * radius

/-- `maxRadius = (arrangement.range[1] || 1) * radius` in `createCenter`:
note the falsy fallback sends `range[1] = 0` to `1`. -/
def centerMaxRadius (g : CenterGeometry) (radius : ℝ) : ℝ :=
  jsOr g.range1 1 * radius

/-- The starting index of the `createCenter` loop: `n = 0`, except that when
the initial `currentRadius = minRadius` is nonzero, `n = (currentRadius /
density)^2` (a real number, not an integer). -/
def centerStartN (g : CenterGeometry) (radius : ℝ) : ℝ :=
  if centerMinRadius g radius = 0 then 0
  else (centerMinRadius g radius / g.density) ^ 2

/-- Embeds `createCenterShape(r, age, size, angle)` returning the `base` and
`tip` node lists before they are wrapped in paths (vector-bloom.js lines
561-630). -/
def centerShapeNodes (r age size angle : ℝ) :
    List VectorBloomNode × List VectorBloomNode :=
  let workerPoint1 := VectorBloomPoint.mk (r * Real.sin angle) (r * Real.cos angle)
  if age < 0.5 then
    -- sleeping floret: a quadrilateral, south point pulled toward the center
    let offset := angle + Real.pi
    let smoothingFactor := if age < 0.1 then 0 else size * age
    let floretLength0 := min (size * 6) (0.5 / age * size)
    let floretLength := if floretLength0 > r then r else floretLength0
    let baseNodes :=
      getRadialNode offset floretLength workerPoint1 0 ::
        (List.range 3).map (fun (i : ℕ) =>
          getRadialNode (offset + ((i : ℝ) + 1) * (Real.pi / 2)) size
            workerPoint1 smoothingFactor)
    (baseNodes, [])
  else
    -- radiating floret: ten nodes alternating between maxR and minR
    let fullCirle := Real.pi * 2
    let step := fullCirle / 10
    let maxR := size
    let minR := size - size * (age - 0.5)
    let smoothing := Real.pi * minR / 15
    let baseNodes := (List.range 10).map (fun (i : ℕ) =>
      getRadialNode (angle + (i : ℝ) * step)
        (if i % 2 = 0 then maxR else minR) workerPoint1 smoothing)
    if age > 0.7 then
      -- the tip: a stem topped by a swept circular cap, seven nodes
      let hs := size * age / 4
      let circleR := size / 2
      let workerPoint4 := workerPoint1.normalize
      let workerPoint2 :=
        (workerPoint4.scale (circleR * (age - 0.7) * 8)).add workerPoint1
      let workerPoint3 := (workerPoint4.scale circleR).add workerPoint2
      let tipNodes :=
        getRadialNode (angle - Real.pi / 2) hs workerPoint1 0 ::
        getRadialNode (angle + Real.pi / 2) hs workerPoint1 0 ::
        getRadialNode (angle + Real.pi / 2) hs workerPoint2 0 ::
        (((List.range 3).map (fun (i : ℕ) =>
            getRadialNode (angle + Real.pi / 2 - (i : ℝ) * (Real.pi / 2))
              circleR workerPoint3 (-circleR * 0.66))) ++
          [getRadialNode (angle - Real.pi / 2) hs workerPoint2 0])
      (baseNodes, tipNodes)
    else
      (baseNodes, [])

/-- The shape returned by `createCenterShape`: `base` and `tip` are paths when
their node lists are non-empty (`baseNodes.length ? new VectorBloomPath(...) :
null`). -/
structure CenterShape where
  base : Option VectorBloomPath
  tip : Option VectorBloomPath

/-- The return statement of `createCenterShape`. -/
def createCenterShape (r age size angle : ℝ) : CenterShape :=
  let nodes := centerShapeNodes r age size angle
  { base := if nodes.1.length = 0 then none else some (VectorBloomPath.mk nodes.1)
    tip := if nodes.2.length = 0 then none else some (VectorBloomPath.mk nodes.2) }

/-- One iteration of the `createCenter` do-while body: the loop locals
`angle`, `currentRadius`, `currentRadiusRatio`, `currentAge`, `currentSize`
and the shape built from them. -/
structure Floret where
  n : ℝ
  angle : ℝ
  radius : ℝ
  age : ℝ
  size : ℝ
  shape : CenterShape

/-- The body of the `createCenter` loop at index `n` (vector-bloom.js lines
537-548). -/
def mkFloret (g : CenterGeometry) (radius n : ℝ) : Floret :=
  let angle := n * GOLDEN_RADIANS
  let currentRadius := g.density * Real.sqrt n
  let currentRadiusRatio := (currentRadius - centerMinRadius g radius) /
    (centerMaxRadius g radius - centerMinRadius g radius)
  let currentAge := currentRadiusRatio * (g.age1 - g.age0) + g.age0
  let currentSize := currentRadiusRatio * (g.size1 - g.size0) + g.size0
  { n := n
    angle := angle
    radius := currentRadius
    age := currentAge
    size := currentSize
    shape := createCenterShape currentRadius currentAge currentSize angle }

/-- The do-while of `createCenter`, with explicit fuel: each iteration emits
one floret, advances `n` by 1 and continues while `currentRadius <
maxRadius`; `none` means the loop is still running after `fuel` iterations. -/
def createCenterLoop (g : CenterGeometry) (radius : ℝ) :
    ℝ → ℕ → Option (List Floret)
  | _, 0 => none
  | n, fuel + 1 =>
    if (mkFloret g radius n).radius < centerMaxRadius g radius then
      (createCenterLoop g radius (n + 1) fuel).map
        (fun rest => mkFloret g radius n :: rest)
    else some [mkFloret g radius n]

/-- The output of `createCenter`: the bases and tips collected in loop
order. -/
structure CenterArrangement where
  bases : List VectorBloomPath
  tips : List VectorBloomPath

/-- Embeds `createCenter(arrangement, radius)` (vector-bloom.js lines
520-551): start the loop at `centerStartN` and collect the non-null bases and
tips in order. -/
def createCenter (g : CenterGeometry) (radius : ℝ) (fuel : ℕ) :
    Option CenterArrangement :=
  (createCenterLoop g radius (centerStartN g radius) fuel).map (fun fs =>
    { bases := fs.filterMap (fun f => f.shape.base)
      tips := fs.filterMap (fun f => f.shape.tip) })

/-- Concrete petal geometry used as witness input: every optional field at its
default. -/
def gW : PetalGeometry :=
  { width := 18, count := 4, length := 242, innerWidth := 18, outerWidth := 18,
    angleOffset := 0, radialOffset := 0, balance := 0.5, smoothing := 0,
    extendOutside := false, offsetX := 0, offsetY := 0, jitter := 0 }

/-- Petal geometry with falsy `width` but truthy `count`: the guarded branch
of `fillPetalDefaults` logs and fills nothing, yet `createPetals` still runs
its loop. All optional fields are explicitly supplied, so no JS `undefined`
arithmetic is involved. -/
def gBadPetal : PetalGeometry :=
  { width := 0, count := 1, length := 50, innerWidth := 4, outerWidth := 4,
    angleOffset := 0, radialOffset := 0, balance := 0.5, smoothing := 0,
    extendOutside := false, offsetX := 0, offsetY := 0, jitter := 0 }

/-- The center geometry of the claimed phyllotaxis scenario: `density = 5`,
`range = [0, 1]`. -/
def gC2 : CenterGeometry :=
  { age0 := 0.4, age1 := 0.8, range0 := 0, range1 := 1, density := 5,
    size0 := 1, size1 := 5 }

/-- Center geometry with `density = 0`: the loop radius is `0 * sqrt n = 0`
forever, strictly below `maxRadius = 100`. -/
def gBadC : CenterGeometry :=
  { age0 := 0, age1 := 1, range0 := 0, range1 := 1, density := 0,
    size0 := 1, size1 := 1 }

/-- Center geometry with `range[1] = 0`: falsy, so the code's bound falls back
to `1 * radius` instead of `0 * radius`. -/
def gR1Zero : CenterGeometry :=
  { age0 := 0, age1 := 1, range0 := 0, range1 := 0, density := 5,
    size0 := 1, size1 := 1 }

/-- Claim-side tangent of the smoothing specification: average (here: sum,
renormalized) of the unit direction from the predecessor to the node and the
unit direction from the node to its successor. -/
def smoothTangent (prevPos pos nextPos : VectorBloomPoint) : VectorBloomPoint :=
  (((pos.subtract prevPos).normalize).add
    ((nextPos.subtract pos).normalize)).normalize

/-- Concrete node list used as witness input for path compilation. -/
def nodes3 : List VectorBloomNode :=
  [VectorBloomNode.ofXY 0 0, VectorBloomNode.ofXY 1 0, VectorBloomNode.ofXY 0 1]

/-! ## Basic lemmas about the Point primitive -/

lemma jsOr_zero (x : ℝ) : jsOr x 0 = x := by
  by_cases h : x = 0 <;> simp [jsOr, h]

namespace VectorBloomPoint

lemma magnitude_nonneg (p : VectorBloomPoint) : 0 ≤ p.magnitude :=
  Real.sqrt_nonneg _

lemma magnitude_mul_self (p : VectorBloomPoint) :
    p.magnitude * p.magnitude = p.x * p.x + p.y * p.y :=
  Real.mul_self_sqrt (add_nonneg (mul_self_nonneg _) (mul_self_nonneg _))

lemma magnitude_normalize (p : VectorBloomPoint) (h : p.magnitude ≠ 0) :
    p.normalize.magnitude = 1 := by
  have hm := magnitude_mul_self p
  show Real.sqrt (p.x / p.magnitude * (p.x / p.magnitude) +
    p.y / p.magnitude * (p.y / p.magnitude)) = 1
  have hq : p.x / p.magnitude * (p.x / p.magnitude) +
      p.y / p.magnitude * (p.y / p.magnitude)
      = (p.x * p.x + p.y * p.y) / (p.magnitude * p.magnitude) := by
    field_simp
  rw [hq, ← hm, div_self (mul_ne_zero h h), Real.sqrt_one]

lemma magnitude_ne_zero_of_ne {p q : VectorBloomPoint} (h : p ≠ q) :
    (p.subtract q).magnitude ≠ 0 := by
  intro h0
  have hm := magnitude_mul_self (p.subtract q)
  rw [h0, zero_mul] at hm
  have hx : (p.subtract q).x * (p.subtract q).x = 0 := by
    nlinarith [mul_self_nonneg (p.subtract q).x, mul_self_nonneg (p.subtract q).y]
  have hy : (p.subtract q).y * (p.subtract q).y = 0 := by
    nlinarith [mul_self_nonneg (p.subtract q).x, mul_self_nonneg (p.subtract q).y]
  have hx0 := mul_self_eq_zero.mp hx
  have hy0 := mul_self_eq_zero.mp hy
  simp only [subtract] at hx0 hy0
  apply h
  ext
  · linarith
  · linarith

lemma magnitude_scale (p : VectorBloomPoint) (c : ℝ) (hc : 0 ≤ c) :
    (p.scale c).magnitude = c * p.magnitude := by
  show Real.sqrt (p.x * c * (p.x * c) + p.y * c * (p.y * c))
    = c * Real.sqrt (p.x * p.x + p.y * p.y)
  rw [show p.x * c * (p.x * c) + p.y * c * (p.y * c)
      = c ^ 2 * (p.x * p.x + p.y * p.y) by ring,
    Real.sqrt_mul (sq_nonneg c), Real.sqrt_sq hc]

lemma normalize_scale_pos (p : VectorBloomPoint) (c : ℝ) (hc : 0 < c) :
    (p.scale c).normalize = p.normalize := by
  have hmag := magnitude_scale p c hc.le
  show VectorBloomPoint.mk ((p.scale c).x / (p.scale c).magnitude)
      ((p.scale c).y / (p.scale c).magnitude)
    = VectorBloomPoint.mk (p.x / p.magnitude) (p.y / p.magnitude)
  rw [hmag]
  congr 1
  · show p.x * c / (c * p.magnitude) = p.x / p.magnitude
    rw [mul_comm p.x c, mul_div_mul_left _ _ (ne_of_gt hc)]
  · show p.y * c / (c * p.magnitude) = p.y / p.magnitude
    rw [mul_comm p.y c, mul_div_mul_left _ _ (ne_of_gt hc)]

lemma distanceFrom_comm (p q : VectorBloomPoint) :
    p.distanceFrom q = q.distanceFrom p := by
  unfold distanceFrom squaredDistanceFrom
  congr 1
  ring

end VectorBloomPoint

/-- Claim C9: for every point `v` with nonzero magnitude, `normalize` is
idempotent — normalizing an already normalized `v` leaves it unchanged — and
the result of `normalize` has magnitude 1 (exactly, over the reals). -/
theorem C9_thm (v : VectorBloomPoint) (h : v.magnitude ≠ 0) :
    v.normalize.normalize = v.normalize ∧ v.normalize.magnitude = 1 := by
  have h1 := VectorBloomPoint.magnitude_normalize v h
  refine ⟨?_, h1⟩
  show VectorBloomPoint.mk (v.normalize.x / v.normalize.magnitude)
      (v.normalize.y / v.normalize.magnitude) = v.normalize
  rw [h1, div_one, div_one]

/-- Witness for C9 at the concrete vector (1, 0). -/
theorem C9_witness :
    (VectorBloomPoint.mk 1 0).magnitude ≠ 0 ∧
    ((VectorBloomPoint.mk 1 0).normalize.normalize
        = (VectorBloomPoint.mk 1 0).normalize ∧
      (VectorBloomPoint.mk 1 0).normalize.magnitude = 1) := by
  have h : (VectorBloomPoint.mk 1 0).magnitude ≠ 0 := by
    show Real.sqrt ((1 : ℝ) * 1 + 0 * 0) ≠ 0
    rw [show (1 : ℝ) * 1 + 0 * 0 = 1 by norm_num, Real.sqrt_one]
    norm_num
  exact ⟨h, C9_thm _ h⟩

/-- Claim C4: for a node with distinct predecessor, node and successor
positions and any smoothing factor `s`, `ApplySmoothing` sets `controlPoint2`
to position + tangent × (s × distance to successor) and `controlPoint1` to
position − tangent × (s × distance from predecessor), where the tangent is
the renormalized sum — equivalently, the renormalized average — of the unit
direction from predecessor to node and of the unit direction from node to
successor (both genuinely unit under the distinctness hypotheses); the
node's position itself is untouched. -/
theorem C4_thm (node originNode nextNode : VectorBloomNode) (s : ℝ)
    (h1 : node.position ≠ originNode.position)
    (h2 : nextNode.position ≠ node.position) :
    ((node.position.subtract originNode.position).normalize).magnitude = 1 ∧
    ((nextNode.position.subtract node.position).normalize).magnitude = 1 ∧
    (ApplySmoothing node originNode nextNode s).controlPoint2 =
      node.position.add
        ((smoothTangent originNode.position node.position nextNode.position).scale
          (s * node.position.distanceFrom nextNode.position)) ∧
    (ApplySmoothing node originNode nextNode s).controlPoint1 =
      node.position.subtract
        ((smoothTangent originNode.position node.position nextNode.position).scale
          (s * node.position.distanceFrom originNode.position)) ∧
    smoothTangent originNode.position node.position nextNode.position =
      ((((node.position.subtract originNode.position).normalize).add
          ((nextNode.position.subtract node.position).normalize)).scale
        (1 / 2)).normalize ∧
    (ApplySmoothing node originNode nextNode s).position = node.position := by
  refine ⟨?_, ?_, ?_, ?_, ?_, rfl⟩
  · exact VectorBloomPoint.magnitude_normalize _
      (VectorBloomPoint.magnitude_ne_zero_of_ne h1)
  · exact VectorBloomPoint.magnitude_normalize _
      (VectorBloomPoint.magnitude_ne_zero_of_ne h2)
  · show node.position.add
        ((smoothTangent originNode.position node.position nextNode.position).scale
          (s * (nextNode.position.distanceFrom node.position)))
      = node.position.add
        ((smoothTangent originNode.position node.position nextNode.position).scale
          (s * node.position.distanceFrom nextNode.position))
    rw [VectorBloomPoint.distanceFrom_comm node.position nextNode.position]
  · show node.position.add
        ((smoothTangent originNode.position node.position nextNode.position).scale
          (-s * (node.position.distanceFrom originNode.position)))
      = node.position.subtract
        ((smoothTangent originNode.position node.position nextNode.position).scale
          (s * node.position.distanceFrom originNode.position))
    simp only [VectorBloomPoint.add, VectorBloomPoint.subtract,
      VectorBloomPoint.scale, VectorBloomPoint.mk.injEq]
    constructor <;> ring
  · exact (VectorBloomPoint.normalize_scale_pos _ (1 / 2) (by norm_num)).symm

/-- Witness for C4 at three concrete nodes with distinct positions. -/
theorem C4_witness :
    (((VectorBloomNode.ofXY 0 1).position.subtract
        (VectorBloomNode.ofXY 0 0).position).normalize).magnitude = 1 ∧
    (ApplySmoothing (VectorBloomNode.ofXY 0 1) (VectorBloomNode.ofXY 0 0)
        (VectorBloomNode.ofXY 1 1) 1).position
      = (VectorBloomNode.ofXY 0 1).position := by
  have h := C4_thm (VectorBloomNode.ofXY 0 1) (VectorBloomNode.ofXY 0 0)
    (VectorBloomNode.ofXY 1 1) 1
    (by simp [VectorBloomNode.ofXY, VectorBloomPoint.mk.injEq])
    (by simp [VectorBloomNode.ofXY, VectorBloomPoint.mk.injEq])
  exact ⟨h.1, h.2.2.2.2.2⟩

/-! ## Path compilation lemmas -/

lemma curveToIdx_eq_mod (len i : ℕ) (h : i < len) :
    curveToIdx len i = (i + 1) % len := by
  unfold curveToIdx
  by_cases he : i = len - 1
  · subst he
    rw [if_pos rfl, show len - 1 + 1 = len by omega, Nat.mod_self]
  · rw [if_neg he, Nat.mod_eq_of_lt (by omega)]

lemma getD_map_range {α : Type} (f : ℕ → α) (n i : ℕ) (d : α) (h : i < n) :
    ((List.range n).map f).getD i d = f i := by
  rw [List.getD_eq_getElem _ _ (by simpa using h)]
  simp

lemma compile_segments_length (p : VectorBloomPath) :
    (compilePathData p).segments.length = p.nodes.length := by
  simp [compilePathData]

lemma compile_segment_getD (p : VectorBloomPath) (i : ℕ)
    (h : i < p.nodes.length) :
    (compilePathData p).segments.getD i defaultSegment =
      BezierSegment.mk (p.nodes.getD i defaultNode).controlPoint2
        (p.nodes.getD ((i + 1) % p.nodes.length) defaultNode).controlPoint1
        (p.nodes.getD ((i + 1) % p.nodes.length) defaultNode).position := by
  show ((List.range p.nodes.length).map (writeData p)).getD i defaultSegment = _
  rw [getD_map_range _ _ _ _ h]
  unfold writeData
  rw [curveToIdx_eq_mod _ _ h]

lemma isClosedCurve_of_ne_nil (p : VectorBloomPath) (h : p.nodes ≠ []) :
    p.IsClosedCurve := by
  obtain ⟨m, hm⟩ : ∃ m, p.nodes.length = m + 1 := by
    have := List.length_pos.mpr h
    exact ⟨p.nodes.length - 1, by omega⟩
  refine ⟨rfl, writeData p m, ?_, ?_⟩
  · show ((List.range p.nodes.length).map (writeData p)).getLast? = _
    rw [hm, List.range_succ, List.map_append]
    simp
  · show (p.nodes.getD (curveToIdx p.nodes.length m) defaultNode).position
      = (p.nodes.getD 0 defaultNode).position
    rw [hm]
    unfold curveToIdx
    simp

/-! ## Petal generator lemmas -/

lemma createPetalsAux_length (g : PetalGeometry) (R : ℝ) :
    ∀ (k : ℕ) (o : ℝ), (createPetalsAux g R k o).length = k := by
  intro k
  induction k with
  | zero => intro o; rfl
  | succ m ih => intro o; simp [createPetalsAux, ih]

lemma createPetalsAux_getD (g : PetalGeometry) (R : ℝ) :
    ∀ (k i : ℕ) (o : ℝ), i < k →
      (createPetalsAux g R k o).getD i defaultPath
        = createPetal g R (o + i * petalStep g) := by
  intro k
  induction k with
  | zero => intro i o h; exact absurd h (Nat.not_lt_zero i)
  | succ m ih =>
    intro i o h
    cases i with
    | zero =>
      show (createPetal g R o ::
        createPetalsAux g R m (o + petalStep g)).getD 0 defaultPath = _
      rw [List.getD_cons_zero]
      norm_num
    | succ i' =>
      show (createPetal g R o ::
        createPetalsAux g R m (o + petalStep g)).getD (i' + 1) defaultPath = _
      rw [List.getD_cons_succ, ih i' (o + petalStep g) (by omega)]
      congr 1
      push_cast
      ring

lemma smoothAllNodes_nodes_length (p : VectorBloomPath) (v : ℝ) :
    (smoothAllNodes p v).nodes.length = p.nodes.length := by
  simp [smoothAllNodes]

lemma createPetal_nodes_length (g : PetalGeometry) (R o : ℝ) :
    (createPetal g R o).nodes.length = 8 := by
  unfold createPetal
  by_cases h : g.smoothing = 0
  · simp [h]
  · simp [h, smoothAllNodes_nodes_length]

/-- Claim C1: for every petal geometry with `count = N`, `createPetals`
produces exactly N paths; the i-th petal is built at the anchor angle
`ToRadian angleOffset + i * (2π/N)` (the angular spacing is `2π/N`, starting
at the degree-to-radian conversion of `angleOffset`) over the effective
radius `R + radialOffset * R`; every petal path has exactly 8 nodes and its
compiled curve is closed. -/
theorem C1_thm (g : PetalGeometry) (R : ℝ) :
    (createPetals g R).length = g.count ∧
    ∀ i : ℕ, i < g.count →
      (createPetals g R).getD i defaultPath
          = createPetal g (R + g.radialOffset * R)
              (ToRadian g.angleOffset + i * (Real.pi * 2 / (g.count : ℝ))) ∧
        ((createPetals g R).getD i defaultPath).nodes.length = 8 ∧
        ((createPetals g R).getD i defaultPath).IsClosedCurve := by
  have hlen : (createPetals g R).length = g.count := by
    unfold createPetals
    exact createPetalsAux_length g _ g.count _
  refine ⟨hlen, ?_⟩
  intro i hi
  have hg : (createPetals g R).getD i defaultPath
      = createPetal g (R + g.radialOffset * R)
          (ToRadian g.angleOffset + i * (Real.pi * 2 / (g.count : ℝ))) := by
    unfold createPetals
    rw [jsOr_zero, jsOr_zero, createPetalsAux_getD g _ g.count i _ hi]
    rfl
  refine ⟨hg, ?_, ?_⟩
  · rw [hg]
    exact createPetal_nodes_length _ _ _
  · rw [hg]
    apply isClosedCurve_of_ne_nil
    have h8 := createPetal_nodes_length g (R + g.radialOffset * R)
      (ToRadian g.angleOffset + i * (Real.pi * 2 / (g.count : ℝ)))
    intro hnil
    rw [hnil] at h8
    simp at h8

/-- Witness for C1 at the concrete geometry `gW` (count 4) and radius 100. -/
theorem C1_witness :
    (createPetals gW 100).length = gW.count ∧
    ((createPetals gW 100).getD 1 defaultPath).nodes.length = 8 := by
  have h := C1_thm gW 100
  exact ⟨h.1, (h.2 1 (by show (1 : ℕ) < 4; norm_num)).2.1⟩

/-- Claim C5: for every path built from a non-empty node list, the compiled
curve has exactly `len nodes` Bezier segments; segment `i` is (node i's
`controlPoint2`, successor's `controlPoint1`, successor's `position`) with
the successor index `(i+1) % len` — so the last node's successor wraps to
node 0; the curve starts at node 0's position and is closed. -/
theorem C5_thm (nodes : List VectorBloomNode) (hn : nodes ≠ []) :
    (compilePathData (VectorBloomPath.mk nodes)).segments.length
        = nodes.length ∧
    (compilePathData (VectorBloomPath.mk nodes)).start
        = (nodes.getD 0 defaultNode).position ∧
    (∀ i : ℕ, i < nodes.length →
      (compilePathData (VectorBloomPath.mk nodes)).segments.getD i
          defaultSegment
        = BezierSegment.mk (nodes.getD i defaultNode).controlPoint2
            (nodes.getD ((i + 1) % nodes.length) defaultNode).controlPoint1
            (nodes.getD ((i + 1) % nodes.length) defaultNode).position) ∧
    (compilePathData (VectorBloomPath.mk nodes)).closed = true ∧
    (VectorBloomPath.mk nodes).IsClosedCurve := by
  refine ⟨compile_segments_length _, rfl, ?_, rfl,
    isClosedCurve_of_ne_nil _ hn⟩
  intro i hi
  exact compile_segment_getD (VectorBloomPath.mk nodes) i hi

/-- Witness for C5 at a concrete three-node path. -/
theorem C5_witness :
    (compilePathData (VectorBloomPath.mk nodes3)).segments.length
        = nodes3.length ∧
    (compilePathData (VectorBloomPath.mk nodes3)).closed = true := by
  have h := C5_thm nodes3 (by simp [nodes3])
  exact ⟨h.1, h.2.2.2.1⟩

/-! ## Petal group collection and invalid-configuration behavior -/

lemma createAllPetals_eq_aux (R : ℝ) :
    ∀ (cs : List PetalGeometry) (acc : List (List VectorBloomPath)),
      cs.foldl (fun acc c => createPetals c R :: acc) acc
        = (cs.map (fun c => createPetals c R)).reverse ++ acc := by
  intro cs
  induction cs with
  | nil => intro acc; simp
  | cons c cs ih =>
    intro acc
    simp only [List.foldl_cons]
    rw [ih]
    simp

lemma createAllPetals_eq (cs : List PetalGeometry) (R : ℝ) :
    createAllPetals cs R = (cs.map (fun c => createPetals c R)).reverse := by
  unfold createAllPetals
  rw [createAllPetals_eq_aux R cs []]
  simp

lemma createPetals_length (g : PetalGeometry) (R : ℝ) :
    (createPetals g R).length = g.count := by
  unfold createPetals
  exact createPetalsAux_length _ _ _ _

lemma createPetals_count_zero (g : PetalGeometry) (R : ℝ) (h : g.count = 0) :
    createPetals g R = [] := by
  unfold createPetals
  rw [h]
  rfl

/-- Counterexample to C6 as stated: the geometry `gBadPetal` has falsy
`width` (so `fillPetalDefaults` takes its warning branch), yet `createPetals`
still produces one petal path — the warned group does not "produce no
petals"; only a falsy `count` does that. -/
theorem C6_cex :
    petalDefaultsWarn gBadPetal ∧ (createPetals gBadPetal 100).length = 1 := by
  constructor
  · unfold petalDefaultsWarn
    left
    rfl
  · exact createPetals_length gBadPetal 100

/-- Claim C6 amended: a petal config with falsy `width`, `count` or `length`
triggers the warning; the group produces no petals exactly when `count` is
falsy, while with a truthy `count` the warned group still produces `count`
paths; and the collected output has one entry per configured group, each
depending only on its own config (later groups inserted at the front), so the
other groups proceed unaffected. -/
theorem C6_thm :
    (∀ (g : PetalGeometry) (R : ℝ), g.count = 0 →
        petalDefaultsWarn g ∧ createPetals g R = []) ∧
    (∀ (g : PetalGeometry) (R : ℝ), petalDefaultsWarn g → g.count ≠ 0 →
        (createPetals g R).length = g.count ∧ createPetals g R ≠ []) ∧
    (∀ (cs : List PetalGeometry) (R : ℝ),
        createAllPetals cs R
          = (cs.map (fun c => createPetals c R)).reverse) := by
  refine ⟨?_, ?_, ?_⟩
  · intro g R h
    exact ⟨Or.inr (Or.inl h), createPetals_count_zero g R h⟩
  · intro g R _ hne
    have hlen := createPetals_length g R
    refine ⟨hlen, ?_⟩
    intro hnil
    rw [hnil] at hlen
    simp at hlen
    exact hne hlen.symm
  · intro cs R
    exact createAllPetals_eq cs R

/-- Witness for the amended C6 at the warned geometry `gBadPetal`. -/
theorem C6_witness :
    (createPetals gBadPetal 100).length = gBadPetal.count ∧
    createPetals gBadPetal 100 ≠ [] :=
  C6_thm.2.1 gBadPetal 100 (Or.inl rfl) (by show (1 : ℕ) ≠ 0; norm_num)

/-! ## Reproducibility and jitter independence -/

/-- Claim C8: with no jitter configured, two generation passes over identical
petal and center configurations produce identical outputs — the generators
are pure functions of the configuration, with no hidden state or randomness
in the geometry path. -/
theorem C8_thm (pg pg' : PetalGeometry) (cg cg' : CenterGeometry) (R : ℝ)
    (fuel : ℕ) (_hj : pg.jitter = 0) (hp : pg = pg') (hc : cg = cg') :
    createPetals pg R = createPetals pg' R ∧
    createCenter cg R fuel = createCenter cg' R fuel := by
  subst hp
  subst hc
  exact ⟨rfl, rfl⟩

/-- Witness for C8 at the concrete configurations `gW` and `gC2`. -/
theorem C8_witness :
    createPetals gW 100 = createPetals gW 100 ∧
    createCenter gC2 100 500 = createCenter gC2 100 500 :=
  C8_thm gW gW gC2 gC2 100 500 rfl rfl rfl

lemma createPetal_setJitter (g : PetalGeometry) (j R o : ℝ) :
    createPetal (setJitter g j) R o = createPetal g R o := rfl

lemma createPetalsAux_setJitter (g : PetalGeometry) (j R : ℝ) :
    ∀ (k : ℕ) (o : ℝ),
      createPetalsAux (setJitter g j) R k o = createPetalsAux g R k o := by
  intro k
  induction k with
  | zero => intro o; rfl
  | succ m ih =>
    intro o
    show createPetal (setJitter g j) R o ::
        createPetalsAux (setJitter g j) R m (o + petalStep (setJitter g j))
      = createPetal g R o :: createPetalsAux g R m (o + petalStep g)
    rw [createPetal_setJitter,
      show petalStep (setJitter g j) = petalStep g from rfl, ih]

lemma createPetals_setJitter (g : PetalGeometry) (j R : ℝ) :
    createPetals (setJitter g j) R = createPetals g R := by
  unfold createPetals
  exact createPetalsAux_setJitter g j _ _ _

/-- Claim C10: two petal geometries identical except for their `jitter` field
generate identical petal paths — the generator never reads `jitter`. -/
theorem C10_thm (g1 g2 : PetalGeometry) (R : ℝ)
    (h : setJitter g1 0 = setJitter g2 0) :
    createPetals g1 R = createPetals g2 R := by
  rw [← createPetals_setJitter g1 0 R, h, createPetals_setJitter g2 0 R]

/-- Witness for C10: the same base geometry with jitter 5 and with jitter 7
generates the same petals. -/
theorem C10_witness :
    createPetals (setJitter gW 5) 100 = createPetals (setJitter gW 7) 100 :=
  C10_thm (setJitter gW 5) (setJitter gW 7) 100 rfl

/-! ## Center shape lemmas -/

lemma centerShapeNodes_sleeping (r age size angle : ℝ) (h : age < 0.5) :
    (centerShapeNodes r age size angle).1.length = 4 ∧
    (centerShapeNodes r age size angle).2.length = 0 := by
  simp only [centerShapeNodes, if_pos h]
  constructor
  · rw [List.length_cons, List.length_map, List.length_range]
  · rfl

lemma centerShapeNodes_radiating (r age size angle : ℝ) (h : ¬ age < 0.5) :
    (centerShapeNodes r age size angle).1.length = 10 := by
  simp only [centerShapeNodes, if_neg h]
  by_cases ht : age > 0.7
  · simp only [if_pos ht]
    rw [List.length_map, List.length_range]
  · simp only [if_neg ht]
    rw [List.length_map, List.length_range]

lemma centerShapeNodes_tip_length (r age size angle : ℝ) (h : ¬ age < 0.5)
    (ht : age > 0.7) :
    (centerShapeNodes r age size angle).2.length = 7 := by
  simp only [centerShapeNodes, if_neg h, if_pos ht]
  rw [List.length_cons, List.length_cons, List.length_cons,
    List.length_append, List.length_map, List.length_range]
  norm_num

lemma centerShapeNodes_tip_nil (r age size angle : ℝ) (ht : ¬ age > 0.7) :
    (centerShapeNodes r age size angle).2.length = 0 := by
  by_cases h : age < 0.5
  · simp only [centerShapeNodes, if_pos h]
    rfl
  · simp only [centerShapeNodes, if_neg h, if_neg ht]
    rfl

/-- Claim C3: `createCenterShape` with `age < 0.5` returns a 4-node
quadrilateral base and no tip; with `age ≥ 0.5` (inclusive at exactly 0.5) a
10-node radiating base; the returned tip is non-null exactly when
`age > 0.7` — so age exactly 0.7 yields no tip while 0.70001 yields one. -/
theorem C3_thm (r age size angle : ℝ) :
    (age < 0.5 →
      (∃ p, (createCenterShape r age size angle).base = some p ∧
        p.nodes.length = 4) ∧
      (createCenterShape r age size angle).tip = none) ∧
    (0.5 ≤ age →
      ∃ p, (createCenterShape r age size angle).base = some p ∧
        p.nodes.length = 10) ∧
    ((createCenterShape r age size angle).tip ≠ none ↔ 0.7 < age) ∧
    (createCenterShape r 0.7 size angle).tip = none ∧
    (createCenterShape r 0.70001 size angle).tip ≠ none := by
  refine ⟨?_, ?_, ?_, ?_, ?_⟩
  · intro h
    obtain ⟨hb, htl⟩ := centerShapeNodes_sleeping r age size angle h
    constructor
    · refine ⟨VectorBloomPath.mk (centerShapeNodes r age size angle).1, ?_, hb⟩
      show (if (centerShapeNodes r age size angle).1.length = 0 then none
          else some (VectorBloomPath.mk (centerShapeNodes r age size angle).1))
        = some (VectorBloomPath.mk (centerShapeNodes r age size angle).1)
      rw [if_neg (by rw [hb]; norm_num)]
    · show (if (centerShapeNodes r age size angle).2.length = 0 then none
          else some (VectorBloomPath.mk (centerShapeNodes r age size angle).2))
        = none
      rw [if_pos htl]
  · intro h
    have h10 := centerShapeNodes_radiating r age size angle (not_lt.mpr h)
    refine ⟨VectorBloomPath.mk (centerShapeNodes r age size angle).1, ?_, h10⟩
    show (if (centerShapeNodes r age size angle).1.length = 0 then none
        else some (VectorBloomPath.mk (centerShapeNodes r age size angle).1))
      = some (VectorBloomPath.mk (centerShapeNodes r age size angle).1)
    rw [if_neg (by rw [h10]; norm_num)]
  · constructor
    · intro hne
      by_contra hle
      apply hne
      show (if (centerShapeNodes r age size angle).2.length = 0 then none
          else some (VectorBloomPath.mk (centerShapeNodes r age size angle).2))
        = none
      rw [if_pos (centerShapeNodes_tip_nil r age size angle hle)]
    · intro hgt
      have h5 : ¬ age < 0.5 := by linarith
      have h7 := centerShapeNodes_tip_length r age size angle h5 hgt
      show (if (centerShapeNodes r age size angle).2.length = 0 then none
          else some (VectorBloomPath.mk (centerShapeNodes r age size angle).2))
        ≠ none
      rw [if_neg (by rw [h7]; norm_num)]
      simp
  · show (if (centerShapeNodes r 0.7 size angle).2.length = 0 then none
        else some (VectorBloomPath.mk (centerShapeNodes r 0.7 size angle).2))
      = none
    rw [if_pos (centerShapeNodes_tip_nil r 0.7 size angle (by norm_num))]
  · have h5 : ¬ (0.70001 : ℝ) < 0.5 := by norm_num
    have h7 := centerShapeNodes_tip_length r 0.70001 size angle h5 (by norm_num)
    show (if (centerShapeNodes r 0.70001 size angle).2.length = 0 then none
        else some (VectorBloomPath.mk (centerShapeNodes r 0.70001 size angle).2))
      ≠ none
    rw [if_neg (by rw [h7]; norm_num)]
    simp

/-- Witness for C3 at a concrete sleeping floret (age 0.3). -/
theorem C3_witness :
    (createCenterShape 1 0.3 2 0).tip = none ∧
    (∃ p, (createCenterShape 1 0.3 2 0).base = some p ∧
      p.nodes.length = 4) := by
  have h := (C3_thm 1 0.3 2 0).1 (by norm_num)
  exact ⟨h.2, h.1⟩

/-! ## Center generator loop lemmas -/

lemma createCenterLoop_zero (g : CenterGeometry) (R n : ℝ) :
    createCenterLoop g R n 0 = none := rfl

lemma createCenterLoop_succ (g : CenterGeometry) (R n : ℝ) (fuel : ℕ) :
    createCenterLoop g R n (fuel + 1) =
      if (mkFloret g R n).radius < centerMaxRadius g R then
        (createCenterLoop g R (n + 1) fuel).map
          (fun rest => mkFloret g R n :: rest)
      else some [mkFloret g R n] := rfl

lemma createCenterLoop_ne_nil (g : CenterGeometry) (R n : ℝ) (fuel : ℕ)
    (l : List Floret) (h : createCenterLoop g R n fuel = some l) : l ≠ [] := by
  cases fuel with
  | zero => rw [createCenterLoop_zero] at h; exact absurd h (by simp)
  | succ m =>
    rw [createCenterLoop_succ] at h
    by_cases hc : (mkFloret g R n).radius < centerMaxRadius g R
    · rw [if_pos hc] at h
      obtain ⟨rest, -, rfl⟩ := Option.map_eq_some'.mp h
      simp
    · rw [if_neg hc] at h
      obtain rfl := Option.some.inj h
      simp

lemma mkFloret_n (g : CenterGeometry) (R n : ℝ) : (mkFloret g R n).n = n := rfl

lemma mkFloret_angle (g : CenterGeometry) (R n : ℝ) :
    (mkFloret g R n).angle = n * GOLDEN_RADIANS := rfl

lemma mkFloret_radius (g : CenterGeometry) (R n : ℝ) :
    (mkFloret g R n).radius = g.density * Real.sqrt n := rfl

lemma createCenterLoop_get (g : CenterGeometry) (R : ℝ) :
    ∀ (fuel : ℕ) (n : ℝ) (l : List Floret),
      createCenterLoop g R n fuel = some l →
      ∀ (k : ℕ) (hk : k < l.length), l.get ⟨k, hk⟩ = mkFloret g R (n + k) := by
  intro fuel
  induction fuel with
  | zero =>
    intro n l h
    rw [createCenterLoop_zero] at h
    exact absurd h (by simp)
  | succ m ih =>
    intro n l h k hk
    rw [createCenterLoop_succ] at h
    by_cases hc : (mkFloret g R n).radius < centerMaxRadius g R
    · rw [if_pos hc] at h
      obtain ⟨rest, hrest, rfl⟩ := Option.map_eq_some'.mp h
      cases k with
      | zero =>
        show mkFloret g R n = mkFloret g R (n + ((0 : ℕ) : ℝ))
        norm_num
      | succ k' =>
        have hk' : k' < rest.length := by
          have := hk
          simp at this
          omega
        show rest.get ⟨k', hk'⟩ = mkFloret g R (n + ((k' + 1 : ℕ) : ℝ))
        rw [ih (n + 1) rest hrest k' hk']
        congr 1
        push_cast
        ring
    · rw [if_neg hc] at h
      obtain rfl := Option.some.inj h
      have hk0 : k = 0 := by
        have : k < 1 := by simpa using hk
        omega
      subst hk0
      show mkFloret g R n = mkFloret g R (n + ((0 : ℕ) : ℝ))
      norm_num

lemma createCenterLoop_last (g : CenterGeometry) (R : ℝ) :
    ∀ (fuel : ℕ) (n : ℝ) (l : List Floret),
      createCenterLoop g R n fuel = some l →
      ∀ (k : ℕ) (hk : k < l.length), k + 1 = l.length →
        centerMaxRadius g R ≤ (l.get ⟨k, hk⟩).radius := by
  intro fuel
  induction fuel with
  | zero =>
    intro n l h
    rw [createCenterLoop_zero] at h
    exact absurd h (by simp)
  | succ m ih =>
    intro n l h k hk hlast
    rw [createCenterLoop_succ] at h
    by_cases hc : (mkFloret g R n).radius < centerMaxRadius g R
    · rw [if_pos hc] at h
      obtain ⟨rest, hrest, rfl⟩ := Option.map_eq_some'.mp h
      cases k with
      | zero =>
        exfalso
        have hlen : rest.length = 0 := by
          have := hlast
          simp only [List.length_cons] at this
          omega
        exact createCenterLoop_ne_nil g R (n + 1) m rest hrest
          (List.length_eq_zero.mp hlen)
      | succ k' =>
        have hk' : k' < rest.length := by
          have := hk
          simp at this
          omega
        have hlast' : k' + 1 = rest.length := by
          have := hlast
          simp at this
          omega
        show centerMaxRadius g R ≤ (rest.get ⟨k', hk'⟩).radius
        exact ih (n + 1) rest hrest k' hk' hlast'
    · rw [if_neg hc] at h
      obtain rfl := Option.some.inj h
      have hk0 : k = 0 := by
        have : k < 1 := by simpa using hk
        omega
      subst hk0
      show centerMaxRadius g R ≤ (mkFloret g R n).radius
      exact not_lt.mp hc

lemma createCenterLoop_mid (g : CenterGeometry) (R : ℝ) :
    ∀ (fuel : ℕ) (n : ℝ) (l : List Floret),
      createCenterLoop g R n fuel = some l →
      ∀ (k : ℕ) (hk : k < l.length), k + 1 < l.length →
        (l.get ⟨k, hk⟩).radius < centerMaxRadius g R := by
  intro fuel
  induction fuel with
  | zero =>
    intro n l h
    rw [createCenterLoop_zero] at h
    exact absurd h (by simp)
  | succ m ih =>
    intro n l h k hk hmid
    rw [createCenterLoop_succ] at h
    by_cases hc : (mkFloret g R n).radius < centerMaxRadius g R
    · rw [if_pos hc] at h
      obtain ⟨rest, hrest, rfl⟩ := Option.map_eq_some'.mp h
      cases k with
      | zero =>
        show (mkFloret g R n).radius < centerMaxRadius g R
        exact hc
      | succ k' =>
        have hk' : k' < rest.length := by
          have := hk
          simp at this
          omega
        have hmid' : k' + 1 < rest.length := by
          have := hmid
          simp at this
          omega
        show (rest.get ⟨k', hk'⟩).radius < centerMaxRadius g R
        exact ih (n + 1) rest hrest k' hk' hmid'
    · rw [if_neg hc] at h
      obtain rfl := Option.some.inj h
      exfalso
      have hlt : k + 1 < 1 := hmid
      omega

lemma createCenterLoop_chain (g : CenterGeometry) (R : ℝ) (hd : 0 ≤ g.density)
    (fuel : ℕ) (n : ℝ) (l : List Floret)
    (h : createCenterLoop g R n fuel = some l) :
    List.Chain' (fun a b => a.radius ≤ b.radius) l := by
  rw [List.chain'_iff_get]
  intro i hi
  rw [createCenterLoop_get g R fuel n l h i (by omega),
    createCenterLoop_get g R fuel n l h (i + 1) (by omega)]
  show g.density * Real.sqrt (n + (i : ℕ))
    ≤ g.density * Real.sqrt (n + ((i + 1 : ℕ) : ℝ))
  apply mul_le_mul_of_nonneg_left _ hd
  apply Real.sqrt_le_sqrt
  push_cast
  linarith

lemma createCenterLoop_some_of_ge (g : CenterGeometry) (R : ℝ) :
    ∀ (K : ℕ) (n : ℝ),
      centerMaxRadius g R ≤ (mkFloret g R (n + K)).radius →
      ∃ l, createCenterLoop g R n (K + 1) = some l := by
  intro K
  induction K with
  | zero =>
    intro n hK
    have hstop : ¬ (mkFloret g R n).radius < centerMaxRadius g R := by
      apply not_lt.mpr
      have heq : n + ((0 : ℕ) : ℝ) = n := by push_cast; ring
      rw [heq] at hK
      exact hK
    refine ⟨[mkFloret g R n], ?_⟩
    rw [createCenterLoop_succ, if_neg hstop]
  | succ m ih =>
    intro n hK
    by_cases hc : (mkFloret g R n).radius < centerMaxRadius g R
    · have hK' : centerMaxRadius g R ≤ (mkFloret g R ((n + 1) + m)).radius := by
        have heq : n + ((m + 1 : ℕ) : ℝ) = (n + 1) + (m : ℝ) := by
          push_cast; ring
        rw [heq] at hK
        exact hK
      obtain ⟨l', hl'⟩ := ih (n + 1) hK'
      refine ⟨mkFloret g R n :: l', ?_⟩
      rw [createCenterLoop_succ, if_pos hc, hl']
      rfl
    · refine ⟨[mkFloret g R n], ?_⟩
      rw [createCenterLoop_succ, if_neg hc]

lemma centerStartN_nonneg (g : CenterGeometry) (R : ℝ) :
    0 ≤ centerStartN g R := by
  unfold centerStartN
  split
  · exact le_refl 0
  · positivity

lemma createCenterLoop_terminates (g : CenterGeometry) (R : ℝ)
    (hd : 0 < g.density) (n : ℝ) (hn : 0 ≤ n) :
    ∃ fuel l, createCenterLoop g R n fuel = some l := by
  set K := Nat.ceil ((centerMaxRadius g R / g.density) ^ 2) with hKdef
  have h1 : (centerMaxRadius g R / g.density) ^ 2 ≤ n + K := by
    have := Nat.le_ceil ((centerMaxRadius g R / g.density) ^ 2)
    rw [← hKdef] at this
    linarith
  have h2 : centerMaxRadius g R / g.density ≤ Real.sqrt (n + K) := by
    calc centerMaxRadius g R / g.density
        ≤ |centerMaxRadius g R / g.density| := le_abs_self _
      _ = Real.sqrt ((centerMaxRadius g R / g.density) ^ 2) :=
          (Real.sqrt_sq_eq_abs _).symm
      _ ≤ Real.sqrt (n + K) := Real.sqrt_le_sqrt h1
  have h3 : centerMaxRadius g R ≤ g.density * Real.sqrt (n + K) := by
    have hmul := mul_le_mul_of_nonneg_left h2 hd.le
    calc centerMaxRadius g R
        = g.density * (centerMaxRadius g R / g.density) := by field_simp
      _ ≤ g.density * Real.sqrt (n + K) := hmul
  obtain ⟨l, hl⟩ := createCenterLoop_some_of_ge g R K n h3
  exact ⟨K + 1, l, hl⟩

lemma centerMinRadius_eq (g : CenterGeometry) (R : ℝ) :
    centerMinRadius g R = g.range0 * R := by
  unfold centerMinRadius
  rw [jsOr_zero]

lemma centerStartN_eq (g : CenterGeometry) (R : ℝ) :
    centerStartN g R = (g.range0 * R / g.density) ^ 2 := by
  unfold centerStartN
  by_cases h : centerMinRadius g R = 0
  · rw [if_pos h]
    rw [centerMinRadius_eq] at h
    rw [h]
    norm_num
  · rw [if_neg h, centerMinRadius_eq]

lemma first_radius_ge (g : CenterGeometry) (R : ℝ) (hd : 0 < g.density)
    (hr0 : 0 ≤ g.range0) (hR : 0 ≤ R) :
    g.range0 * R ≤ (mkFloret g R (centerStartN g R)).radius := by
  rw [mkFloret_radius]
  unfold centerStartN
  by_cases h : centerMinRadius g R = 0
  · rw [if_pos h, Real.sqrt_zero, mul_zero]
    rw [centerMinRadius_eq] at h
    exact le_of_eq h
  · rw [if_neg h, centerMinRadius_eq,
      Real.sqrt_sq (div_nonneg (mul_nonneg hr0 hR) hd.le),
      mul_comm g.density (g.range0 * R / g.density),
      div_mul_cancel₀ _ (ne_of_gt hd)]

/-! ## Termination of the center generator -/

/-- Counterexample to C7 as stated: with `density = 0` (geometry `gBadC`) and
radius 100 the loop radius is `0 * sqrt n = 0 < 100` at every step, so the
do-while never stops: `createCenter` completes under no fuel bound. -/
lemma gBadC_loop_none : ∀ (fuel : ℕ) (n : ℝ),
    createCenterLoop gBadC 100 n fuel = none := by
  intro fuel
  induction fuel with
  | zero => intro n; rfl
  | succ m ih =>
    intro n
    have hcond : (mkFloret gBadC 100 n).radius < centerMaxRadius gBadC 100 := by
      rw [mkFloret_radius]
      show (0 : ℝ) * Real.sqrt n < centerMaxRadius gBadC 100
      rw [zero_mul]
      show (0 : ℝ) < jsOr 1 1 * 100
      norm_num [jsOr]
    rw [createCenterLoop_succ, if_pos hcond, ih]
    rfl

/-- Counterexample to C7: generation does not terminate for the configuration
`gBadC` (`density = 0`, `range = [0, 1]`, center radius 100). -/
theorem C7_cex : ¬ ∃ fuel ca, createCenter gBadC 100 fuel = some ca := by
  rintro ⟨fuel, ca, h⟩
  unfold createCenter at h
  rw [gBadC_loop_none fuel (centerStartN gBadC 100)] at h
  exact absurd h (by simp)

/-- Claim C7 amended: for every configuration whose arrangement density is
positive, the `createCenter` do-while terminates — some finite fuel makes the
loop complete (`n` advances by 1 each step and `density * sqrt n` eventually
reaches the loop bound); with `density = 0` it does not (see the
counterexample). -/
theorem C7_thm (g : CenterGeometry) (R : ℝ) (hd : 0 < g.density) :
    ∃ fuel ca, createCenter g R fuel = some ca := by
  obtain ⟨fuel, l, hl⟩ := createCenterLoop_terminates g R hd
    (centerStartN g R) (centerStartN_nonneg g R)
  refine ⟨fuel,
    { bases := l.filterMap (fun f => f.shape.base)
      tips := l.filterMap (fun f => f.shape.tip) }, ?_⟩
  unfold createCenter
  rw [hl]
  rfl

/-- Witness for the amended C7 at the concrete geometry `gC2`. -/
theorem C7_witness : ∃ fuel ca, createCenter gC2 100 fuel = some ca :=
  C7_thm gC2 100 (by show (0 : ℝ) < 5; norm_num)

/-! ## Phyllotaxis placement -/

/-- Counterexample to C2 as stated: for `gR1Zero` (`range = [0, 0]`,
`density = 5`) at radius 100 the very first floret already has radius
`0 ≥ range1 * 100 = 0`, so by the claim the loop would stop after that one
qualifying step — yet one unit of fuel is not enough (the loop is still
running), and every completed run has at least two florets, because the code's
actual bound is `(range[1] || 1) * radius = 100`, not `range1 * radius`. -/
theorem C2_cex :
    createCenterLoop gR1Zero 100 (centerStartN gR1Zero 100) 1 = none ∧
    gR1Zero.range1 * 100 ≤
      (mkFloret gR1Zero 100 (centerStartN gR1Zero 100)).radius ∧
    ∃ fuel l, createCenterLoop gR1Zero 100 (centerStartN gR1Zero 100) fuel
        = some l ∧ 2 ≤ l.length := by
  have hmin : centerMinRadius gR1Zero 100 = 0 := by
    show jsOr (0 : ℝ) 0 * 100 = 0
    norm_num [jsOr]
  have hstart : centerStartN gR1Zero 100 = 0 := by
    unfold centerStartN
    rw [if_pos hmin]
  have hmax : centerMaxRadius gR1Zero 100 = 100 := by
    show jsOr (0 : ℝ) 1 * 100 = 100
    norm_num [jsOr]
  have hrad0 : (mkFloret gR1Zero 100 (centerStartN gR1Zero 100)).radius = 0 := by
    rw [mkFloret_radius, hstart, Real.sqrt_zero, mul_zero]
  refine ⟨?_, ?_, ?_⟩
  · rw [createCenterLoop_succ, if_pos (by rw [hrad0, hmax]; norm_num),
      createCenterLoop_zero]
    rfl
  · rw [hrad0]
    show (0 : ℝ) * 100 ≤ 0
    norm_num
  · obtain ⟨fuel, l, hl⟩ := createCenterLoop_terminates gR1Zero 100
      (by show (0 : ℝ) < 5; norm_num) (centerStartN gR1Zero 100)
      (centerStartN_nonneg _ _)
    refine ⟨fuel, l, hl, ?_⟩
    have hne := createCenterLoop_ne_nil _ _ _ _ _ hl
    have hpos := List.length_pos.mpr hne
    by_contra hlen2
    have hlen1 : l.length = 1 := by omega
    have hlast := createCenterLoop_last gR1Zero 100 fuel _ l hl 0
      (by omega) (by omega)
    rw [createCenterLoop_get gR1Zero 100 fuel _ l hl 0 (by omega)] at hlast
    have hzero : centerStartN gR1Zero 100 + ((0 : ℕ) : ℝ) = 0 := by
      rw [hstart]
      norm_num
    rw [hzero, mkFloret_radius, Real.sqrt_zero, mul_zero, hmax] at hlast
    linarith

/-- Claim C2 amended: `goldenRatioConst` and `GOLDEN_RADIANS` are exactly the
claimed constants; for every arrangement with positive density, nonnegative
`range0` and radius, the starting index is `(range0 * R / density)^2` (0 when
`range0 * R` is 0) and the first generated radius is ≥ `range0 * R`; every
run of the loop that completes yields florets whose k-th entry has
`n = startN + k`, angle `n * GOLDEN_RADIANS` and radius `density * sqrt n`;
every floret before the last has radius strictly below the loop bound
`(range1 || 1) * R` — the code falls back to `1` when `range1` is falsy —
and the final qualifying floret reaches it; and for `density = 5`,
`range = [0,1]`, radius 100 (`gC2`) the first floret has `n = 0`, angle 0,
radius 0 with successive radii non-decreasing. -/
theorem C2_thm :
    goldenRatioConst = (1 + Real.sqrt 5) / 2 ∧
    GOLDEN_RADIANS
        = 2 * (Real.pi - goldenRatioConst * Real.pi / (1 + goldenRatioConst)) ∧
    (∀ (g : CenterGeometry) (R : ℝ), 0 < g.density → 0 ≤ g.range0 → 0 ≤ R →
      centerStartN g R = (g.range0 * R / g.density) ^ 2 ∧
      g.range0 * R ≤ (mkFloret g R (centerStartN g R)).radius ∧
      ∀ (fuel : ℕ) (l : List Floret),
        createCenterLoop g R (centerStartN g R) fuel = some l →
        l ≠ [] ∧
        (∀ (k : ℕ) (hk : k < l.length),
          (l.get ⟨k, hk⟩).n = centerStartN g R + k ∧
          (l.get ⟨k, hk⟩).angle = (centerStartN g R + k) * GOLDEN_RADIANS ∧
          (l.get ⟨k, hk⟩).radius
            = g.density * Real.sqrt (centerStartN g R + k)) ∧
        (∀ (k : ℕ) (hk : k < l.length), k + 1 < l.length →
          (l.get ⟨k, hk⟩).radius < centerMaxRadius g R) ∧
        (∀ (k : ℕ) (hk : k < l.length), k + 1 = l.length →
          centerMaxRadius g R ≤ (l.get ⟨k, hk⟩).radius) ∧
        List.Chain' (fun a b => a.radius ≤ b.radius) l) ∧
    (centerStartN gC2 100 = 0 ∧
      ∀ (fuel : ℕ) (l : List Floret),
        createCenterLoop gC2 100 (centerStartN gC2 100) fuel = some l →
        ∀ (h0 : 0 < l.length),
          (l.get ⟨0, h0⟩).n = 0 ∧ (l.get ⟨0, h0⟩).angle = 0 ∧
          (l.get ⟨0, h0⟩).radius = 0 ∧
          List.Chain' (fun a b => a.radius ≤ b.radius) l) := by
  refine ⟨rfl, rfl, ?_, ?_⟩
  · intro g R hd hr0 hR
    refine ⟨centerStartN_eq g R, first_radius_ge g R hd hr0 hR, ?_⟩
    intro fuel l hl
    refine ⟨createCenterLoop_ne_nil _ _ _ _ _ hl, ?_, ?_, ?_, ?_⟩
    · intro k hk
      rw [createCenterLoop_get g R fuel _ l hl k hk]
      exact ⟨rfl, rfl, rfl⟩
    · intro k hk hmid
      exact createCenterLoop_mid g R fuel _ l hl k hk hmid
    · intro k hk hlast
      exact createCenterLoop_last g R fuel _ l hl k hk hlast
    · exact createCenterLoop_chain g R hd.le fuel _ l hl
  · have hmin : centerMinRadius gC2 100 = 0 := by
      show jsOr (0 : ℝ) 0 * 100 = 0
      norm_num [jsOr]
    have hstart : centerStartN gC2 100 = 0 := by
      unfold centerStartN
      rw [if_pos hmin]
    refine ⟨hstart, ?_⟩
    intro fuel l hl h0
    have hget := createCenterLoop_get gC2 100 fuel _ l hl 0 h0
    have hzero : centerStartN gC2 100 + ((0 : ℕ) : ℝ) = 0 := by
      rw [hstart]
      norm_num
    rw [hzero] at hget
    refine ⟨?_, ?_, ?_,
      createCenterLoop_chain gC2 100 (by show (0 : ℝ) ≤ 5; norm_num)
        fuel _ l hl⟩
    · rw [hget, mkFloret_n]
    · rw [hget, mkFloret_angle, zero_mul]
    · rw [hget, mkFloret_radius, Real.sqrt_zero, mul_zero]

/-- Witness for the amended C2 at `gC2` and radius 100: the numeric
hypotheses hold, the loop does complete for some fuel, and the theorem's
conclusions apply to that completed run. -/
theorem C2_witness :
    centerStartN gC2 100 = (gC2.range0 * 100 / gC2.density) ^ 2 ∧
    ∃ fuel l, createCenterLoop gC2 100 (centerStartN gC2 100) fuel = some l ∧
      l ≠ [] := by
  have hgen := C2_thm.2.2.1 gC2 100 (by show (0 : ℝ) < 5; norm_num)
    (by show (0 : ℝ) ≤ 0; norm_num) (by norm_num)
  obtain ⟨fuel, l, hl⟩ := createCenterLoop_terminates gC2 100
    (by show (0 : ℝ) < 5; norm_num) (centerStartN gC2 100)
    (centerStartN_nonneg _ _)
  exact ⟨hgen.1, fuel, l, hl, (hgen.2.2 fuel l hl).1⟩
end
